import Mathlib

/-!
# Verification of the cupcake-store CRUD validation and partial-update contract

Shallow embedding of the validation / merge / orchestration logic of the
`julimonteiro/cupcake-store` Go repository:

* `internal/models` — the `Cupcake` entity and the two request shapes;
* `internal/service/cupcake_service.go` — `validateCreateRequest`,
  `CreateCupcake`, `UpdateCupcake`, `DeleteCupcake`;
* `internal/repository/cupcake.go` — the GORM-backed repository, modelled as
  explicit state passing over a `Store` (row list plus an autoincrement
  counter); the calls issued to the engine by `Update`/`Delete` are recorded
  in logs so that "a write was / was not issued" is observable;
* `internal/handler/cupcake.go` — the by-id path-parameter guard shared
  verbatim by `GetCupcake`, `UpdateCupcake` and `DeleteCupcake`.

Go string conventions are kept: `len(s)` is the UTF-8 byte length
(`String.utf8ByteSize`), and `strings.TrimSpace` trims characters satisfying
`unicode.IsSpace` (modelled for the Latin-1 range, which covers every
character the service's validation messages and the spec's examples use).
Timestamps (`CreatedAt`/`UpdatedAt`) are set by the store engine and play no
role in any claim, so the entity model omits them.
-/

/-- `models.Cupcake` (internal/models): the persisted entity.
`PriceCents` is a Go `int`, modelled as `Int`. -/
structure Cupcake where
  id : Nat
  name : String
  flavor : String
  priceCents : Int
  isAvailable : Bool
deriving DecidableEq, Repr

/-- `models.CreateCupcakeRequest`: all three fields required. -/
structure CreateCupcakeRequest where
  name : String
  flavor : String
  priceCents : Int
deriving DecidableEq, Repr

/-- `models.UpdateCupcakeRequest`: every field optional (`*string`, `*int`,
`*bool` pointers in Go; `none` = field absent from the request). -/
structure UpdateCupcakeRequest where
  name : Option String
  flavor : Option String
  priceCents : Option Int
  isAvailable : Option Bool
deriving DecidableEq, Repr

/-- Go `unicode.IsSpace` restricted to the Latin-1 range:
`'\t'`, `'\n'`, `'\v'`, `'\f'`, `'\r'`, `' '`, U+0085 (NEL), U+00A0 (NBSP). -/
def goIsSpace (c : Char) : Bool :=
  c = ' ' || c = '\t' || c = '\n' || c = '\x0b' || c = '\x0c' || c = '\r' ||
    c = '\x85' || c = '\xa0'

/-- Go `strings.TrimSpace`: drop leading and trailing white space. -/
def trimSpace (s : String) : String :=
  ⟨((s.data.dropWhile goIsSpace).reverse.dropWhile goIsSpace).reverse⟩

/-- `CupcakeService.validateCreateRequest`
(internal/service/cupcake_service.go:90-108).  Checks run top to bottom and
the first failure returns; error messages are the exact Go strings.
`len` in Go is the UTF-8 byte count, hence `String.utf8ByteSize`. -/
def validateCreateRequest (req : CreateCupcakeRequest) : Except String Unit :=
  if trimSpace req.name = "" then
    .error "name is required"
  else if (trimSpace req.name).utf8ByteSize < 2 then
    .error "name must have at least 2 characters"
  else if trimSpace req.flavor = "" then
    .error "flavor is required"
  else if req.priceCents ≤ 0 then
    .error "price must be greater than zero"
  else
    .ok ()

/-- The repository's backing state: the `cupcakes` table (insertion order)
plus the autoincrement counter, and logs of the `Save`/`Delete` statements
issued to the engine (so claims about "a write was issued" are statable). -/
structure Store where
  rows : List Cupcake
  nextId : Nat
  writeLog : List Cupcake := []
  deleteLog : List Nat := []
deriving DecidableEq, Repr

/-- `CupcakeRepository.Create`: `r.db.Create(cupcake)` — GORM assigns the
autoincrement primary key and inserts the row. -/
def repoCreate (st : Store) (c : Cupcake) : Except String (Cupcake × Store) :=
  let assigned := { c with id := st.nextId }
  .ok (assigned, { st with rows := st.rows ++ [assigned], nextId := st.nextId + 1 })

/-- `CupcakeRepository.FindByID`: `r.db.First(&cupcake, id)` — GORM's
"record not found" error when no row matches. -/
def FindByID (st : Store) (id : Nat) : Except String Cupcake :=
  match st.rows.find? (fun r => r.id = id) with
  | some c => .ok c
  | none => .error "record not found"

/-- `CupcakeRepository.Update`: `r.db.Save(cupcake)` — a full-row overwrite
of the row with the same primary key; the issued write is logged. -/
def repoUpdate (st : Store) (c : Cupcake) : Except String Store :=
  .ok { st with rows := st.rows.map (fun r => if r.id = c.id then c else r),
                writeLog := st.writeLog ++ [c] }

/-- `CupcakeRepository.Delete` (internal/repository/cupcake.go:41-43):
`r.db.Delete(&models.Cupcake{}, id)` — GORM reports no error when no row
matches the id, so this succeeds unconditionally. -/
def repoDelete (st : Store) (id : Nat) : Except String Store :=
  .ok { st with rows := st.rows.filter (fun r => r.id ≠ id),
                deleteLog := st.deleteLog ++ [id] }

/-- `CupcakeService.CreateCupcake`
(internal/service/cupcake_service.go:19-36): validate, build the entity with
the *trimmed* name and flavor and `IsAvailable: true`, then store it.
Returns the service's result together with the resulting store state. -/
def CreateCupcake (st : Store) (req : CreateCupcakeRequest) :
    Except String Cupcake × Store :=
  match validateCreateRequest req with
  | .error e => (.error e, st)
  | .ok _ =>
    let cupcake : Cupcake :=
      { id := 0
        name := trimSpace req.name
        flavor := trimSpace req.flavor
        priceCents := req.priceCents
        isAvailable := true }
    match repoCreate st cupcake with
    | .error e => (.error e, st)
    | .ok (c, st2) => (.ok c, st2)

/-- `UpdateCupcake`, step 4 (internal/service/cupcake_service.go:75-77):
`if req.IsAvailable != nil { cupcake.IsAvailable = *req.IsAvailable }`;
no validation is possible on a boolean, then the function falls through to
the repository write. -/
def updateAvailableStep (cupcake : Cupcake) (req : UpdateCupcakeRequest) :
    Except String Cupcake :=
  match req.isAvailable with
  | some b => .ok { cupcake with isAvailable := b }
  | none => .ok cupcake

/-- `UpdateCupcake`, step 3 (internal/service/cupcake_service.go:68-73):
`if req.PriceCents != nil { if *req.PriceCents <= 0 { return ... } ... }` —
a nonpositive present price returns early with the price error, otherwise
the price is set and evaluation continues with the availability field. -/
def updatePriceStep (cupcake : Cupcake) (req : UpdateCupcakeRequest) :
    Except String Cupcake :=
  match req.priceCents with
  | some p =>
    if p ≤ 0 then .error "price must be greater than zero"
    else updateAvailableStep { cupcake with priceCents := p } req
  | none => updateAvailableStep cupcake req

/-- `UpdateCupcake`, step 2 (internal/service/cupcake_service.go:64-66):
`if req.Flavor != nil { cupcake.Flavor = strings.TrimSpace(*req.Flavor) }` —
the trimmed flavor is set unconditionally (no non-empty check), then
evaluation continues with the price field. -/
def updateFlavorStep (cupcake : Cupcake) (req : UpdateCupcakeRequest) :
    Except String Cupcake :=
  match req.flavor with
  | some f => updatePriceStep { cupcake with flavor := trimSpace f } req
  | none => updatePriceStep cupcake req

/-- The field-merge portion of `CupcakeService.UpdateCupcake`
(internal/service/cupcake_service.go:56-77), applied to the fetched entity:
fields are handled in source order name → flavor → price → available, each
early `return` of the Go code becoming an `Except.error` that skips every
later step. -/
def updateFields (cupcake : Cupcake) (req : UpdateCupcakeRequest) :
    Except String Cupcake :=
  match req.name with
  | some rawName =>
    let name := trimSpace rawName
    if name.utf8ByteSize < 2 then .error "name must have at least 2 characters"
    else updateFlavorStep { cupcake with name := name } req
  | none => updateFlavorStep cupcake req

/-- `CupcakeService.UpdateCupcake`
(internal/service/cupcake_service.go:50-84): fetch the entity (propagating
the gateway's not-found error), merge the request's present fields, and only
when every validation passed issue the repository `Update`.  On any error the
store is returned unchanged — the early returns happen before `repo.Update`
is reached. -/
def UpdateCupcake (st : Store) (id : Nat) (req : UpdateCupcakeRequest) :
    Except String Cupcake × Store :=
  match FindByID st id with
  | .error e => (.error e, st)
  | .ok cupcake =>
    match updateFields cupcake req with
    | .error e => (.error e, st)
    | .ok c =>
      match repoUpdate st c with
      | .error e => (.error e, st)
      | .ok st2 => (.ok c, st2)

/-- `CupcakeService.DeleteCupcake`
(internal/service/cupcake_service.go:86-88): `return s.repo.Delete(id)` —
the service delegates directly to the repository with no existence check. -/
def DeleteCupcake (st : Store) (id : Nat) : Except String Store :=
  repoDelete st id

/-- Outcome of the by-id handlers' path-parameter guard: either the 400
response `{"error": msg}` sent by `sendJSONError`, or the call into the
service layer with the parsed id. -/
inductive IdOutcome where
  | badRequest (msg : String)
  | callService (id : Nat)
deriving DecidableEq, Repr

/-- The digit loop of Go `strconv.ParseUint` with base 10: every character
must be a decimal digit (no sign, no prefix, no underscores with an explicit
base), accumulating `acc*10 + digit`. `none` is Go's `ErrSyntax`. -/
def parseDigits (l : List Char) (acc : Nat) : Option Nat :=
  match l with
  | [] => some acc
  | c :: cs =>
    if c.isDigit then parseDigits cs (acc * 10 + (c.toNat - 48)) else none

/-- Go `strconv.ParseUint(idStr, 10, 32)`: the empty string is a syntax
error, any non-digit is a syntax error, and a parsed value above
`2^32 - 1 = 4294967295` is a range error.  (Go clamps the returned value on
range error, but the handler only tests `err != nil`, so the clamped value
is never observed.) -/
def parseUint32 (s : String) : Option Nat :=
  if s.data = [] then none
  else
    match parseDigits s.data 0 with
    | some n => if n ≤ 4294967295 then some n else none
    | none => none

/-- The id guard shared verbatim by `CupcakeHandler.GetCupcake`,
`CupcakeHandler.UpdateCupcake` and `CupcakeHandler.DeleteCupcake`
(internal/handler/cupcake.go:54-60, 83-89, 107-113):
`id, err := strconv.ParseUint(idStr, 10, 32); if err != nil || id == 0 {
sendJSONError(w, "Invalid ID", http.StatusBadRequest); return }` — only when
the guard passes is the service layer invoked with the id. -/
def handleByID (idStr : String) : IdOutcome :=
  match parseUint32 idStr with
  | none => .badRequest "Invalid ID"
  | some id => if id = 0 then .badRequest "Invalid ID" else .callService id

/-! ## Helper lemmas -/

theorem utf8ByteSize_empty : ("" : String).utf8ByteSize = 0 := rfl

theorem ne_empty_of_two_le_utf8ByteSize {s : String}
    (h : 2 ≤ s.utf8ByteSize) : s ≠ "" := by
  intro he
  rw [he, utf8ByteSize_empty] at h
  omega

theorem ne_empty_of_utf8ByteSize_eq_one {s : String}
    (h : s.utf8ByteSize = 1) : s ≠ "" := by
  intro he
  rw [he, utf8ByteSize_empty] at h
  omega

theorem validateCreateRequest_ok (req : CreateCupcakeRequest)
    (hname : 2 ≤ (trimSpace req.name).utf8ByteSize)
    (hflavor : trimSpace req.flavor ≠ "")
    (hprice : 0 < req.priceCents) :
    validateCreateRequest req = .ok () := by
  rw [validateCreateRequest, if_neg (ne_empty_of_two_le_utf8ByteSize hname),
    if_neg (by omega), if_neg hflavor, if_neg (by omega)]

theorem CreateCupcake_ok (st : Store) (req : CreateCupcakeRequest)
    (hok : validateCreateRequest req = .ok ()) :
    CreateCupcake st req =
      (.ok { id := st.nextId, name := trimSpace req.name,
             flavor := trimSpace req.flavor, priceCents := req.priceCents,
             isAvailable := true },
       { st with
           rows := st.rows ++
             [{ id := st.nextId, name := trimSpace req.name,
                flavor := trimSpace req.flavor, priceCents := req.priceCents,
                isAvailable := true }]
           nextId := st.nextId + 1 }) := by
  simp [CreateCupcake, hok, repoCreate]

/-- Full characterization of the update merge: it succeeds exactly when every
present name trims to byte length ≥ 2 and every present price is positive,
and then the result overwrites exactly the present fields (name and flavor
with their trimmed values). -/
theorem updateFields_ok_iff (c : Cupcake) (req : UpdateCupcakeRequest)
    (c2 : Cupcake) :
    updateFields c req = .ok c2 ↔
      ((∀ n ∈ req.name, 2 ≤ (trimSpace n).utf8ByteSize) ∧
       (∀ p ∈ req.priceCents, 0 < p) ∧
       c2 = { id := c.id
              name := ((req.name.map trimSpace).getD c.name)
              flavor := ((req.flavor.map trimSpace).getD c.flavor)
              priceCents := req.priceCents.getD c.priceCents
              isAvailable := req.isAvailable.getD c.isAvailable }) := by
  cases hn : req.name <;> cases hf : req.flavor <;> cases hp : req.priceCents <;>
    cases ha : req.isAvailable <;>
      simp [updateFields, updateFlavorStep, updatePriceStep, updateAvailableStep,
        hn, hf, hp, ha, eq_comm] <;>
    (try split_ifs) <;>
      (try simp_all [Cupcake.mk.injEq, eq_comm]) <;> (try omega) <;>
    (try exact eq_comm)

example : trimSpace "  ab " = "ab" := by decide
example : trimSpace "   " = "" := by decide
example : validateCreateRequest ⟨" A ", "Dark", 100⟩ =
    .error "name must have at least 2 characters" := rfl
example : updateFields ⟨7, "Original Name", "Original Flavor", 1000, true⟩
    ⟨some "Updated Name Only", none, none, none⟩ =
    .ok ⟨7, "Updated Name Only", "Original Flavor", 1000, true⟩ := rfl
example : handleByID "4294967296" = .badRequest "Invalid ID" := by decide
example : handleByID "4294967295" = .callService 4294967295 := by decide
example : handleByID "0" = .badRequest "Invalid ID" := by decide
example : DeleteCupcake ⟨[], 1, [], []⟩ 999 = .ok ⟨[], 1, [], [999]⟩ := rfl

/-! ## Claims -/

/-- **C1**: for every create request whose trimmed name has (byte) length ≥ 2,
whose trimmed flavor is non-empty, and whose price is > 0, create validation
succeeds and the entity constructed for storage has name and flavor equal to
the trimmed inputs (not the raw inputs) and its available flag set to true. -/
theorem create_valid_succeeds_and_stores_trimmed (req : CreateCupcakeRequest)
    (hname : 2 ≤ (trimSpace req.name).utf8ByteSize)
    (hflavor : trimSpace req.flavor ≠ "")
    (hprice : 0 < req.priceCents) :
    validateCreateRequest req = .ok () ∧
    ∀ st : Store, ∃ c2 st2,
      CreateCupcake st req = (.ok c2, st2) ∧
      c2.name = trimSpace req.name ∧ c2.flavor = trimSpace req.flavor ∧
      c2.priceCents = req.priceCents ∧ c2.isAvailable = true ∧
      st2.rows = st.rows ++ [c2] := by
  have hok := validateCreateRequest_ok req hname hflavor hprice
  exact ⟨hok, fun st =>
    ⟨_, _, CreateCupcake_ok st req hok, rfl, rfl, rfl, rfl, rfl⟩⟩

theorem create_valid_succeeds_and_stores_trimmed_witness :
    2 ≤ (trimSpace " Chocolate Especial ").utf8ByteSize ∧
    trimSpace " Chocolate Belga " ≠ "" ∧ (0 : Int) < 1500 ∧
    validateCreateRequest
      ⟨" Chocolate Especial ", " Chocolate Belga ", 1500⟩ = .ok () ∧
    ∃ c2 st2,
      CreateCupcake ⟨[], 1, [], []⟩
          ⟨" Chocolate Especial ", " Chocolate Belga ", 1500⟩ = (.ok c2, st2) ∧
      c2.name = trimSpace " Chocolate Especial " ∧
      c2.flavor = trimSpace " Chocolate Belga " ∧
      c2.priceCents = 1500 ∧ c2.isAvailable = true ∧
      st2.rows = [] ++ [c2] :=
  ⟨by decide, by decide, by decide,
    (create_valid_succeeds_and_stores_trimmed
      ⟨" Chocolate Especial ", " Chocolate Belga ", 1500⟩
      (by decide) (by decide) (by decide)).1,
    (create_valid_succeeds_and_stores_trimmed
      ⟨" Chocolate Especial ", " Chocolate Belga ", 1500⟩
      (by decide) (by decide) (by decide)).2 ⟨[], 1, [], []⟩⟩

/-- **C7**: every create request whose trimmed name is empty fails validation
with the `NameRequired` message ("name is required"), regardless of the
flavor and price values — the empty-name check is the first one evaluated. -/
theorem create_empty_name_fails_name_required (req : CreateCupcakeRequest)
    (h : trimSpace req.name = "") :
    validateCreateRequest req = .error "name is required" := by
  rw [validateCreateRequest, if_pos h]

theorem create_empty_name_fails_name_required_witness :
    trimSpace "   " = "" ∧
    validateCreateRequest ⟨"   ", "", -5⟩ = .error "name is required" :=
  ⟨by decide, create_empty_name_fails_name_required ⟨"   ", "", -5⟩ (by decide)⟩

/-- **C8**: every create request whose trimmed name is non-empty with (byte)
length 1 fails validation with the `NameTooShort` message
("name must have at least 2 characters"). -/
theorem create_one_byte_name_fails_too_short (req : CreateCupcakeRequest)
    (h : (trimSpace req.name).utf8ByteSize = 1) :
    validateCreateRequest req =
      .error "name must have at least 2 characters" := by
  rw [validateCreateRequest, if_neg (ne_empty_of_utf8ByteSize_eq_one h),
    if_pos (by omega)]

theorem create_one_byte_name_fails_too_short_witness :
    (trimSpace " A ").utf8ByteSize = 1 ∧
    validateCreateRequest ⟨" A ", "Dark", 100⟩ =
      .error "name must have at least 2 characters" :=
  ⟨by decide, create_one_byte_name_fails_too_short ⟨" A ", "Dark", 100⟩ (by decide)⟩

theorem updateFields_error_name (c : Cupcake) (req : UpdateCupcakeRequest)
    (n : String) (hn : req.name = some n)
    (h : (trimSpace n).utf8ByteSize < 2) :
    updateFields c req = .error "name must have at least 2 characters" := by
  simp [updateFields, hn, h]

theorem updateFields_error_price (c : Cupcake) (req : UpdateCupcakeRequest)
    (p : Int) (hp : req.priceCents = some p) (hple : p ≤ 0)
    (hname : ∀ n ∈ req.name, 2 ≤ (trimSpace n).utf8ByteSize) :
    updateFields c req = .error "price must be greater than zero" := by
  cases hn : req.name <;> cases hf : req.flavor <;>
    simp_all [updateFields, updateFlavorStep, updatePriceStep] <;>
      rw [if_neg (by omega)] <;>
        simp [updatePriceStep, hp, hple]

theorem UpdateCupcake_error_of_updateFields (st : Store) (id : Nat)
    (req : UpdateCupcakeRequest) (c : Cupcake) (e : String)
    (hfind : FindByID st id = .ok c)
    (herr : updateFields c req = .error e) :
    UpdateCupcake st id req = (.error e, st) := by
  simp [UpdateCupcake, hfind, herr]

theorem UpdateCupcake_ok_of_updateFields (st : Store) (id : Nat)
    (req : UpdateCupcakeRequest) (c c2 : Cupcake)
    (hfind : FindByID st id = .ok c)
    (hok : updateFields c req = .ok c2) :
    UpdateCupcake st id req =
      (.ok c2,
       { st with rows := st.rows.map (fun r => if r.id = c2.id then c2 else r),
                 writeLog := st.writeLog ++ [c2] }) := by
  simp [UpdateCupcake, hfind, hok, repoUpdate]

/-- **C3**: update fields are validated in source order name → flavor →
price → available (flavor and available have no failing check); the first
failing field fails the whole update with that field's error, the store —
rows and write log alike — is returned unchanged (no persistence write is
issued), and when every present field validates the update reaches the
repository write and succeeds. -/
theorem update_validation_order_short_circuits (st : Store) (id : Nat)
    (req : UpdateCupcakeRequest) (c : Cupcake)
    (hfind : FindByID st id = .ok c) :
    (∀ n, req.name = some n → (trimSpace n).utf8ByteSize < 2 →
      UpdateCupcake st id req =
        (.error "name must have at least 2 characters", st)) ∧
    (∀ p, req.priceCents = some p → p ≤ 0 →
      (∀ n ∈ req.name, 2 ≤ (trimSpace n).utf8ByteSize) →
      UpdateCupcake st id req =
        (.error "price must be greater than zero", st)) ∧
    (∀ e, updateFields c req = .error e →
      UpdateCupcake st id req = (.error e, st)) ∧
    ((∀ n ∈ req.name, 2 ≤ (trimSpace n).utf8ByteSize) →
      (∀ p ∈ req.priceCents, 0 < p) →
      ∃ c2 st2, UpdateCupcake st id req = (.ok c2, st2)) := by
  refine ⟨?_, ?_, ?_, ?_⟩
  · intro n hn hlt
    exact UpdateCupcake_error_of_updateFields st id req c _ hfind
      (updateFields_error_name c req n hn hlt)
  · intro p hp hple hname
    exact UpdateCupcake_error_of_updateFields st id req c _ hfind
      (updateFields_error_price c req p hp hple hname)
  · intro e he
    exact UpdateCupcake_error_of_updateFields st id req c e hfind he
  · intro h1 h2
    exact ⟨_, _, UpdateCupcake_ok_of_updateFields st id req c _ hfind
      ((updateFields_ok_iff c req _).mpr ⟨h1, h2, rfl⟩)⟩

theorem update_validation_order_short_circuits_witness :
    FindByID ⟨[⟨1, "Choco", "Dark", 100, true⟩], 2, [], []⟩ 1 =
      .ok ⟨1, "Choco", "Dark", 100, true⟩ ∧
    (trimSpace " x ").utf8ByteSize < 2 ∧
    UpdateCupcake ⟨[⟨1, "Choco", "Dark", 100, true⟩], 2, [], []⟩ 1
        ⟨some " x ", none, some (-1), none⟩ =
      (.error "name must have at least 2 characters",
       ⟨[⟨1, "Choco", "Dark", 100, true⟩], 2, [], []⟩) :=
  ⟨rfl, by decide,
   (update_validation_order_short_circuits
     ⟨[⟨1, "Choco", "Dark", 100, true⟩], 2, [], []⟩ 1
     ⟨some " x ", none, some (-1), none⟩
     ⟨1, "Choco", "Dark", 100, true⟩ rfl).1 " x " rfl (by decide)⟩

/-- **C4**: fields absent from the update request leave the corresponding
entity fields unchanged; in particular the entity
`{name:"Original Name", flavor:"Original Flavor", price:1000,
available:true}` updated with only `name:"Updated Name Only"` yields
`{name:"Updated Name Only", flavor:"Original Flavor", price:1000,
available:true}`. -/
theorem update_absent_fields_unchanged (c : Cupcake)
    (req : UpdateCupcakeRequest) (c2 : Cupcake)
    (h : updateFields c req = .ok c2) :
    (req.name = none → c2.name = c.name) ∧
    (req.flavor = none → c2.flavor = c.flavor) ∧
    (req.priceCents = none → c2.priceCents = c.priceCents) ∧
    (req.isAvailable = none → c2.isAvailable = c.isAvailable) ∧
    updateFields ⟨7, "Original Name", "Original Flavor", 1000, true⟩
        ⟨some "Updated Name Only", none, none, none⟩ =
      .ok ⟨7, "Updated Name Only", "Original Flavor", 1000, true⟩ := by
  obtain ⟨-, -, hc2⟩ := (updateFields_ok_iff c req c2).mp h
  subst hc2
  refine ⟨?_, ?_, ?_, ?_, rfl⟩ <;> intro hnone <;> simp [hnone]

theorem update_absent_fields_unchanged_witness :
    updateFields ⟨1, "AA", "BB", 5, false⟩ ⟨none, none, none, some true⟩ =
      .ok ⟨1, "AA", "BB", 5, true⟩ ∧
    ((⟨1, "AA", "BB", 5, true⟩ : Cupcake).name = "AA" ∧
     (⟨1, "AA", "BB", 5, true⟩ : Cupcake).flavor = "BB" ∧
     (⟨1, "AA", "BB", 5, true⟩ : Cupcake).priceCents = 5) :=
  ⟨rfl,
   ((update_absent_fields_unchanged ⟨1, "AA", "BB", 5, false⟩
       ⟨none, none, none, some true⟩ ⟨1, "AA", "BB", 5, true⟩ rfl).1 rfl),
   ((update_absent_fields_unchanged ⟨1, "AA", "BB", 5, false⟩
       ⟨none, none, none, some true⟩ ⟨1, "AA", "BB", 5, true⟩ rfl).2.1 rfl),
   ((update_absent_fields_unchanged ⟨1, "AA", "BB", 5, false⟩
       ⟨none, none, none, some true⟩ ⟨1, "AA", "BB", 5, true⟩ rfl).2.2.1 rfl)⟩

/-- **C5**: when the update request's name is present it is trimmed; the
update fails with the `NameTooShort` message whenever the trimmed (byte)
length is < 2 — a present-but-empty name falls under this same check (there
is no separate "required" path on update) — and otherwise the trimmed name
is what ends up on the merged entity. -/
theorem update_present_name_trimmed_or_too_short (c : Cupcake)
    (req : UpdateCupcakeRequest) (n : String) (hn : req.name = some n) :
    ((trimSpace n).utf8ByteSize < 2 →
      updateFields c req = .error "name must have at least 2 characters") ∧
    (∀ c2, updateFields c req = .ok c2 → c2.name = trimSpace n) := by
  constructor
  · exact updateFields_error_name c req n hn
  · intro c2 h
    obtain ⟨-, -, hc2⟩ := (updateFields_ok_iff c req c2).mp h
    subst hc2
    simp [hn]

theorem update_present_name_trimmed_or_too_short_witness :
    (trimSpace "").utf8ByteSize < 2 ∧
    updateFields ⟨1, "AA", "BB", 5, true⟩ ⟨some "", none, none, none⟩ =
      .error "name must have at least 2 characters" ∧
    updateFields ⟨1, "AA", "BB", 5, true⟩ ⟨some " New Name ", none, none, none⟩ =
      .ok ⟨1, "New Name", "BB", 5, true⟩ ∧
    (⟨1, "New Name", "BB", 5, true⟩ : Cupcake).name = trimSpace " New Name " :=
  ⟨by decide,
   (update_present_name_trimmed_or_too_short ⟨1, "AA", "BB", 5, true⟩
     ⟨some "", none, none, none⟩ "" rfl).1 (by decide),
   rfl,
   (update_present_name_trimmed_or_too_short ⟨1, "AA", "BB", 5, true⟩
     ⟨some " New Name ", none, none, none⟩ " New Name " rfl).2
     ⟨1, "New Name", "BB", 5, true⟩ rfl⟩

/-- **C6**: when the update request's flavor is present it is trimmed and set
on the entity unconditionally (no non-empty check); an update whose flavor is
only whitespace sets the entity's flavor to the empty string. -/
theorem update_present_flavor_set_unconditionally (c : Cupcake)
    (req : UpdateCupcakeRequest) (f : String) (hf : req.flavor = some f) :
    (∀ c2, updateFields c req = .ok c2 → c2.flavor = trimSpace f) ∧
    (∀ e : Cupcake, updateFields e ⟨none, some "   ", none, none⟩ =
      .ok { e with flavor := "" }) := by
  constructor
  · intro c2 h
    obtain ⟨-, -, hc2⟩ := (updateFields_ok_iff c req c2).mp h
    subst hc2
    simp [hf]
  · intro e
    have ht : trimSpace "   " = "" := by decide
    simp [updateFields, updateFlavorStep, updatePriceStep, updateAvailableStep, ht]

theorem update_present_flavor_set_unconditionally_witness :
    updateFields ⟨1, "AA", "BB", 5, true⟩ ⟨none, some "   ", none, none⟩ =
      .ok ⟨1, "AA", "", 5, true⟩ ∧
    (⟨1, "AA", "", 5, true⟩ : Cupcake).flavor = trimSpace "   " :=
  ⟨rfl,
   (update_present_flavor_set_unconditionally ⟨1, "AA", "BB", 5, true⟩
     ⟨none, some "   ", none, none⟩ "   " rfl).1
     ⟨1, "AA", "", 5, true⟩ rfl⟩

/-- **C9**: an update request with all four fields absent succeeds, returning
the fetched entity completely unchanged, and the repository write (`Save`)
is still issued — observable as the entity appended to the write log. -/
theorem update_all_absent_is_identity (st : Store) (id : Nat) (c : Cupcake)
    (hfind : FindByID st id = .ok c) :
    UpdateCupcake st id ⟨none, none, none, none⟩ =
      (.ok c,
       { st with rows := st.rows.map (fun r => if r.id = c.id then c else r),
                 writeLog := st.writeLog ++ [c] }) :=
  UpdateCupcake_ok_of_updateFields st id ⟨none, none, none, none⟩ c c hfind rfl

theorem update_all_absent_is_identity_witness :
    FindByID ⟨[⟨1, "Choco", "Dark", 100, true⟩], 2, [], []⟩ 1 =
      .ok ⟨1, "Choco", "Dark", 100, true⟩ ∧
    UpdateCupcake ⟨[⟨1, "Choco", "Dark", 100, true⟩], 2, [], []⟩ 1
        ⟨none, none, none, none⟩ =
      (.ok ⟨1, "Choco", "Dark", 100, true⟩,
       ⟨[⟨1, "Choco", "Dark", 100, true⟩], 2,
        [⟨1, "Choco", "Dark", 100, true⟩], []⟩) :=
  ⟨rfl,
   update_all_absent_is_identity
     ⟨[⟨1, "Choco", "Dark", 100, true⟩], 2, [], []⟩ 1
     ⟨1, "Choco", "Dark", 100, true⟩ rfl⟩

/-- **C2** (refuted: the shipped code contradicts the claim and its own
tests): `CupcakeService.DeleteCupcake` is `return s.repo.Delete(id)` — it
issues the gateway delete directly, with no call to any existence operation,
and GORM's delete of a non-matching id is not an error.  On an empty store,
deleting id 999 therefore *succeeds* (and the delete statement is issued to
the engine), even though no entity with that id exists (`FindByID` reports
the gateway's "record not found").  The repository's own tests
(`TestDelete_NotFound`, `TestDeleteCupcake_NotFound`) and the
`CupcakeRepositoryInterface` declaration of `Exists` demand the existence
check with the layer-level "cupcake not found" failure that the claim
describes. -/
theorem delete_skips_existence_check :
    DeleteCupcake ⟨[], 1, [], []⟩ 999 = .ok ⟨[], 1, [], [999]⟩ ∧
    FindByID ⟨[], 1, [], []⟩ 999 = .error "record not found" :=
  ⟨rfl, rfl⟩

theorem eq_empty_of_data_eq_nil {s : String} (h : s.data = []) : s = "" := by
  cases s with
  | mk data =>
    cases h
    rfl

theorem parseUint32_nil (s : String) (hnil : s.data = []) :
    parseUint32 s = none := by
  rw [parseUint32, if_pos hnil]

theorem parseUint32_of_digits (s : String) (n : Nat) (hnil : s.data ≠ [])
    (hp : parseDigits s.data 0 = some n) :
    parseUint32 s = if n ≤ 4294967295 then some n else none := by
  rw [parseUint32, if_neg hnil, hp]

theorem handleByID_of_parse_none (s : String) (h : parseUint32 s = none) :
    handleByID s = .badRequest "Invalid ID" := by
  rw [handleByID, h]

theorem handleByID_of_parse_some (s : String) (n : Nat)
    (h : parseUint32 s = some n) :
    handleByID s =
      if n = 0 then .badRequest "Invalid ID" else .callService n := by
  rw [handleByID, h]

/-- **C10**: the by-id handlers (GET, PUT, DELETE) parse the id path segment
with `strconv.ParseUint(idStr, 10, 32)`: a decimal numeral denoting a value
above `2^32 - 1 = 4294967295` is a range error, answered 400 with body
`{"error": "Invalid ID"}` before the service layer is ever invoked; the
guard reaches the service exactly for the identifiers 1 .. 2^32 - 1. -/
theorem handler_id_guard_32_bit (s : String) :
    (∀ n, parseDigits s.data 0 = some n → 4294967295 < n →
      handleByID s = .badRequest "Invalid ID") ∧
    (∀ id, handleByID s = .callService id ↔
      (s ≠ "" ∧ parseDigits s.data 0 = some id ∧ 1 ≤ id ∧ id ≤ 4294967295)) := by
  constructor
  · intro n hparse hgt
    by_cases hnil : s.data = []
    · exact handleByID_of_parse_none s (parseUint32_nil s hnil)
    · have hpu := parseUint32_of_digits s n hnil hparse
      rw [if_neg (by omega)] at hpu
      exact handleByID_of_parse_none s hpu
  · intro id
    constructor
    · intro h
      by_cases hnil : s.data = []
      · rw [handleByID_of_parse_none s (parseUint32_nil s hnil)] at h
        cases h
      · refine ⟨fun he => hnil (he ▸ rfl), ?_⟩
        cases hp : parseDigits s.data 0 with
        | none =>
          have hpu : parseUint32 s = none := by
            rw [parseUint32, if_neg hnil, hp]
          rw [handleByID_of_parse_none s hpu] at h
          cases h
        | some m =>
          have hpu := parseUint32_of_digits s m hnil hp
          by_cases hle : m ≤ 4294967295
          · rw [if_pos hle] at hpu
            rw [handleByID_of_parse_some s m hpu] at h
            by_cases hz : m = 0
            · rw [if_pos hz] at h
              cases h
            · rw [if_neg hz] at h
              injection h with hm
              subst hm
              exact ⟨rfl, by omega, hle⟩
          · rw [if_neg hle] at hpu
            rw [handleByID_of_parse_none s hpu] at h
            cases h
    · rintro ⟨hne, hp, h1, h2⟩
      have hnil : s.data ≠ [] := fun hd => hne (eq_empty_of_data_eq_nil hd)
      have hpu := parseUint32_of_digits s id hnil hp
      rw [if_pos h2] at hpu
      rw [handleByID_of_parse_some s id hpu, if_neg (by omega)]

theorem handler_id_guard_32_bit_witness :
    parseDigits ("4294967296").data 0 = some 4294967296 ∧
    4294967295 < 4294967296 ∧
    handleByID "4294967296" = .badRequest "Invalid ID" ∧
    handleByID "4294967295" = .callService 4294967295 ∧
    handleByID "0" = .badRequest "Invalid ID" :=
  ⟨by decide, by decide,
   (handler_id_guard_32_bit "4294967296").1 4294967296 (by decide) (by decide),
   ((handler_id_guard_32_bit "4294967295").2 4294967295).mpr
     ⟨by decide, by decide, by decide, by decide⟩,
   by decide⟩
